import Mathlib

/-!
Shallow embedding of the chat widget in `AdvancedChatbot` (the advanced
component of this repository): the conversation state, the completion
request construction, the `sendMessage` exchange (submit / settle phases),
the key-press and button submission paths, the clear button and the model
selector.  The UI event loop is modelled as a step function on a `World`
that carries the component state together with the list of in-flight
HTTP requests.
-/

namespace Chatbot

/-- `type?: 'default' | 'code' | 'error'` of the `Message` interface. -/
inductive MsgType where
  | default
  | code
  | error
deriving DecidableEq

/-- The `Message` interface:
`{ id, user: 'Вы' | 'Бот', text, timestamp, type?, reactions? }`. -/
structure Message where
  id : String
  user : String
  text : String
  timestamp : Nat
  type : Option MsgType := none
  reactions : Option (List String) := none
deriving DecidableEq

/-- `ModelProvider.Gemini = 'google/gemini-pro'`. -/
def ModelProvider.Gemini : String := "google/gemini-pro"

/-- `ModelProvider.DeepSeek = 'deepseek/deepseek-chat'`. -/
def ModelProvider.DeepSeek : String := "deepseek/deepseek-chat"

/-- The `ChatConfig` interface `{ model, temperature, maxTokens }`. -/
structure ChatConfig where
  model : String
  temperature : ℚ
  maxTokens : Nat
deriving DecidableEq

/-- The literal `0.7`, as a rational in lowest terms. -/
def tempDefault : ℚ := ⟨7, 10, by norm_num, by norm_num⟩

/-- The initial `config` state: Gemini, temperature 0.7, maxTokens 300. -/
def initialConfig : ChatConfig :=
  { model := ModelProvider.Gemini, temperature := tempDefault, maxTokens := 300 }

/-- `getApiKey`: switch on the model string, returning the environment
credential for the two allow-listed providers and `''` otherwise.
The environment (`import.meta.env`) is passed as a lookup function. -/
def getApiKey (env : String → String) (model : String) : String :=
  if model = ModelProvider.Gemini then env "VITE_GEMINI_API_KEY"
  else if model = ModelProvider.DeepSeek then env "VITE_DEEPSEEKR1_API_KEY"
  else ""

/-- The observable fields of the axios instance built by `createApiClient`. -/
structure ApiClient where
  baseURL : String
  timeout : Nat
  authorization : String
  contentType : String
deriving DecidableEq

/-- `createApiClient`: axios instance with the fixed base URL, 15000 ms
timeout, and a bearer header from `getApiKey(config.model)`. -/
def createApiClient (env : String → String) (config : ChatConfig) : ApiClient :=
  { baseURL := "https://openrouter.ai/api/v1/"
    timeout := 15000
    authorization := "Bearer " ++ getApiKey env config.model
    contentType := "application/json" }

/-- The whitespace class stripped by `String.prototype.trim` (the
characters relevant to this codebase). -/
def isJsSpace (c : Char) : Bool :=
  c == ' ' || c == '\t' || c == '\n' || c == '\r'

/-- JavaScript `s.trim()`: strip leading and trailing whitespace. -/
def jsTrim (s : String) : String :=
  ⟨((s.toList.dropWhile isJsSpace).reverse.dropWhile isJsSpace).reverse⟩

/-- Helper for `String.prototype.includes`: does `pat` start `l`? -/
def strStartsAux : List Char → List Char → Bool
  | [], _ => true
  | _ :: _, [] => false
  | a :: as, b :: bs => a = b && strStartsAux as bs

/-- Helper for `String.prototype.includes`: does `pat` occur in `l`? -/
def strIncludesAux (pat : List Char) : List Char → Bool
  | [] => pat.isEmpty
  | c :: cs => strStartsAux pat (c :: cs) || strIncludesAux pat cs

/-- JavaScript `s.includes(pat)`. -/
def jsIncludes (s pat : String) : Bool :=
  strIncludesAux pat.toList s.toList

/-- The code-fence marker tested by `botReply.includes('```')`. -/
def codeFence : String := "```"

/-- The fixed fallback reply `'Ответ не получен.'`. -/
def fallbackReply : String := "Ответ не получен."

/-- The fixed error reply `'Ошибка при получении ответа.'`. -/
def errorReply : String := "Ошибка при получении ответа."

/-- JSON shape `{content}` under `choices[i].message`; `content` may be
absent. -/
structure RespMessage where
  content : Option String
deriving DecidableEq

/-- JSON shape `{message}` of one element of `choices`; `message` may be
absent. -/
structure RespChoice where
  message : Option RespMessage
deriving DecidableEq

/-- JSON shape `{choices}` of the response body; `choices` may be absent. -/
structure RespData where
  choices : Option (List RespChoice)
deriving DecidableEq

/-- The axios response; `data` may be absent. -/
structure Response where
  data : Option RespData
deriving DecidableEq

/-- The optional chain `response.data?.choices?.[0]?.message?.content`:
`none` models JavaScript `undefined`. -/
def optionalChainContent (r : Response) : Option String :=
  match r.data with
  | none => none
  | some d =>
    match d.choices with
    | none => none
    | some cs =>
      match cs.head? with
      | none => none
      | some c =>
        match c.message with
        | none => none
        | some m => m.content

/-- JavaScript `v || fallback` on a possibly-undefined string: both
`undefined` and the empty string are falsy. -/
def jsOrString (v : Option String) (fallback : String) : String :=
  match v with
  | none => fallback
  | some s => if s = "" then fallback else s

/-- `botReply = response.data?.choices?.[0]?.message?.content || 'Ответ не получен.'`. -/
def extractBotReply (r : Response) : String :=
  jsOrString (optionalChainContent r) fallbackReply

/-- The bot `Message` built on the success path of `sendMessage`. -/
def botMessageOf (resp : Response) (idB : String) (now : Nat) : Message :=
  { id := idB
    user := "Бот"
    text := extractBotReply resp
    timestamp := now
    type := some (if jsIncludes (extractBotReply resp) codeFence then
      MsgType.code else MsgType.default) }

/-- The bot `Message` built in the `catch` branch of `sendMessage`. -/
def errorMessageOf (idB : String) (now : Nat) : Message :=
  { id := idB
    user := "Бот"
    text := errorReply
    timestamp := now
    type := some MsgType.error }

/-- The component state of `AdvancedChatbot` that the exchange logic
touches: `messages`, `input`, `isLoading`, `config`, `isTyping`. -/
structure ChatState where
  messages : List Message
  input : String
  isLoading : Bool
  config : ChatConfig
  isTyping : Bool
deriving DecidableEq

/-- The initial `useState` values. -/
def initialState : ChatState :=
  { messages := []
    input := ""
    isLoading := false
    config := initialConfig
    isTyping := false }

/-- The observable content of one outbound `api.post('chat/completions', …)`. -/
structure ChatRequest where
  endpoint : String
  authorization : String
  model : String
  userContent : String
  maxTokens : Nat
  temperature : ℚ
deriving DecidableEq

/-- The request body and auth header `sendMessage` builds from the config
and the trimmed input. -/
def mkRequest (env : String → String) (cfg : ChatConfig) (content : String) :
    ChatRequest :=
  { endpoint := "chat/completions"
    authorization := (createApiClient env cfg).authorization
    model := cfg.model
    userContent := content
    maxTokens := cfg.maxTokens
    temperature := cfg.temperature }

/-- Component state plus the in-flight requests issued but not yet
settled. -/
structure World where
  ui : ChatState
  pending : List ChatRequest
deriving DecidableEq

/-- The world at mount: initial state, nothing in flight. -/
def initialWorld : World := { ui := initialState, pending := [] }

/-- The synchronous prefix of `sendMessage`, up to and including issuing
the HTTP request: trim the input, return unchanged if falsy, else append
the user message, blank the input, raise `isLoading`/`isTyping`, and put
one request in flight.  `idU` and `now` stand for `generateId()` and
`Date.now()` at this call. -/
def sendMessageStart (env : String → String) (idU : String) (now : Nat)
    (w : World) : World :=
  let trimmedInput := jsTrim w.ui.input
  if trimmedInput = "" then w
  else
    let userMessage : Message :=
      { id := idU, user := "Вы", text := trimmedInput, timestamp := now }
    { ui := { w.ui with
        messages := w.ui.messages ++ [userMessage]
        input := ""
        isLoading := true
        isTyping := true }
      pending := w.pending ++ [mkRequest env w.ui.config trimmedInput] }

/-- How one awaited request ends: the response, or any thrown error
(network failure, timeout, non-2xx status). -/
inductive Outcome where
  | success (resp : Response)
  | failure
deriving DecidableEq

/-- The message list after the `try`/`catch` body of `sendMessage` runs
for one settled request. -/
def settleMessages (o : Outcome) (idB : String) (now : Nat)
    (msgs : List Message) : List Message :=
  match o with
  | Outcome.success resp => msgs ++ [botMessageOf resp idB now]
  | Outcome.failure => msgs ++ [errorMessageOf idB now]

/-- The resumption of `sendMessage` when an in-flight request settles:
append the bot or error message, then the `finally` block lowers
`isLoading` and `isTyping`.  A no-op when nothing is in flight. -/
def sendMessageSettle (o : Outcome) (idB : String) (now : Nat)
    (w : World) : World :=
  match w.pending with
  | [] => w
  | _ :: rest =>
    { ui := { w.ui with
        messages := settleMessages o idB now w.ui.messages
        isLoading := false
        isTyping := false }
      pending := rest }

/-- The `disabled` expression of the send button:
`isLoading || !input.trim()`. -/
def sendDisabled (s : ChatState) : Bool :=
  s.isLoading || jsTrim s.input == ""

/-- The UI events the exchange logic reacts to. -/
inductive Event where
  | typeInput (s : String)
  | pressKey (key : String) (shift : Bool) (idU : String) (now : Nat)
  | clickSend (idU : String) (now : Nat)
  | clickClear
  | setModel (m : String)
  | settle (o : Outcome) (idB : String) (now : Nat)
deriving DecidableEq

/-- One event-loop step.  `typeInput` is the input `onChange` (the input
element is never disabled); `pressKey` is `handleKeyPress`, which calls
`sendMessage` on Enter without Shift and without any further guard;
`clickSend` is the send button, which only fires when not `disabled`;
`clickClear` is the clear button `onClick={() => setMessages([])}`;
`setModel` is the model `select` `onChange`; `settle` resumes `sendMessage`
after its awaited request ends. -/
def step (env : String → String) (w : World) (e : Event) : World :=
  match e with
  | Event.typeInput s => { w with ui := { w.ui with input := s } }
  | Event.pressKey key shift idU now =>
    if key == "Enter" && !shift then sendMessageStart env idU now w else w
  | Event.clickSend idU now =>
    if sendDisabled w.ui then w else sendMessageStart env idU now w
  | Event.clickClear => { w with ui := { w.ui with messages := [] } }
  | Event.setModel m =>
    { w with ui := { w.ui with config := { w.ui.config with model := m } } }
  | Event.settle o idB now => sendMessageSettle o idB now w

/-- Run a sequence of events from a world. -/
def run (env : String → String) (w : World) (es : List Event) : World :=
  es.foldl (step env) w

/-- A world the event loop can actually reach from mount. -/
def Reachable (env : String → String) (w : World) : Prop :=
  ∃ es : List Event, run env initialWorld es = w

/-- An environment with no credentials set. -/
def env0 : String → String := fun _ => ""

/-- An environment holding distinct credentials for the two providers. -/
def env1 : String → String := fun k =>
  if k = "VITE_GEMINI_API_KEY" then "gemini-secret"
  else if k = "VITE_DEEPSEEKR1_API_KEY" then "deepseek-secret"
  else ""

/-- A well-formed response whose reply text is `"Hello"`. -/
def helloResp : Response :=
  { data := some { choices := some [{ message := some { content := some "Hello" } }] } }

/-- A response whose `content` field is present but the empty string. -/
def emptyContentResp : Response :=
  { data := some { choices := some [{ message := some { content := some "" } }] } }

/-- A response body without a `choices` array. -/
def noChoicesResp : Response :=
  { data := some { choices := none } }

/-- A response whose reply text contains a fenced code block marker. -/
def codeResp : Response :=
  { data :=
      some { choices := some [{ message := some { content := some "see ```js``` here" } }] } }

/-- The world after typing `hi` and submitting with Enter: one request is
in flight and `isLoading` is raised. -/
def loadingWorld : World :=
  run env0 initialWorld
    [Event.typeInput "hi", Event.pressKey "Enter" false "u1" 1]

/-- `loadingWorld` after typing a new draft while still loading (the input
element of `AdvancedChatbot` carries no `disabled` attribute). -/
def draftLoadingWorld : World :=
  run env0 initialWorld
    [Event.typeInput "hi", Event.pressKey "Enter" false "u1" 1,
     Event.typeInput "draft"]

/-- The initial world after typing `hi`. -/
def typedWorld : World :=
  step env0 initialWorld (Event.typeInput "hi")

/-- The initial world after typing whitespace only. -/
def whitespaceWorld : World :=
  step env0 initialWorld (Event.typeInput "   ")

/-- A whole successful exchange in which `Date.now()` returns `5` both at
submission and at settlement. -/
def sameInstantWorld : World :=
  run env0 initialWorld
    [Event.typeInput "hi", Event.clickSend "u1" 5,
     Event.settle (Outcome.success helloResp) "b1" 5]

/-- Claim C1, counterexample: a reachable world has `isLoading = true` and
one request in flight, yet the Enter-keypress submission path (which is
guarded neither by `isLoading` nor by a `disabled` attribute on the input)
starts a second request before the first settles, leaving two requests
outstanding. -/
theorem c1EnterPathStartsSecondRequest :
    Reachable env0 loadingWorld ∧
    loadingWorld.ui.isLoading = true ∧
    loadingWorld.pending.length = 1 ∧
    (step env0 loadingWorld (Event.typeInput "again")).ui.isLoading = true ∧
    (step env0 (step env0 loadingWorld (Event.typeInput "again"))
      (Event.pressKey "Enter" false "u2" 2)).pending.length = 2 := by
  refine ⟨⟨[Event.typeInput "hi", Event.pressKey "Enter" false "u1" 1], rfl⟩,
    by decide, by decide, by decide, by decide⟩

/-- Claim C1, amended: while `isLoading` is true the button-click
submission path is inert (the send button's `disabled` expression holds),
so a click starts no second request; the Enter-keypress path carries no
such guard. -/
theorem c1ClickPathGatedWhileLoading (env : String → String) (w : World)
    (idU : String) (now : Nat) (h : w.ui.isLoading = true) :
    step env w (Event.clickSend idU now) = w := by
  simp [step, sendDisabled, h]

/-- Witness for `c1ClickPathGatedWhileLoading` at a concrete loading
world. -/
theorem c1ClickPathGatedWhileLoadingWitness :
    loadingWorld.ui.isLoading = true ∧
    step env0 loadingWorld (Event.clickSend "u9" 9) = loadingWorld :=
  ⟨by decide, c1ClickPathGatedWhileLoading env0 loadingWorld "u9" 9 (by decide)⟩

/-- Claim C2: whatever outcome settles an in-flight request (response or
thrown error), the `finally` block of `sendMessage` lowers `isLoading`
(and `isTyping`), so the awaiting flag is false after the exchange. -/
theorem c2AwaitingFlagReleasedOnSettle (env : String → String) (w : World)
    (o : Outcome) (idB : String) (now : Nat) (h : w.pending ≠ []) :
    (step env w (Event.settle o idB now)).ui.isLoading = false ∧
    (step env w (Event.settle o idB now)).ui.isTyping = false := by
  cases hp : w.pending with
  | nil => exact absurd hp h
  | cons r rest => simp [step, sendMessageSettle, hp]

/-- Witness for `c2AwaitingFlagReleasedOnSettle` at a concrete loading
world and a failure outcome. -/
theorem c2AwaitingFlagReleasedOnSettleWitness :
    loadingWorld.pending ≠ [] ∧
    ((step env0 loadingWorld (Event.settle Outcome.failure "b1" 2)).ui.isLoading = false ∧
     (step env0 loadingWorld (Event.settle Outcome.failure "b1" 2)).ui.isTyping = false) :=
  ⟨by decide,
   c2AwaitingFlagReleasedOnSettle env0 loadingWorld Outcome.failure "b1" 2 (by decide)⟩

/-- Claim C3, counterexample: a successful exchange submitted and settled
within the same `Date.now()` instant appends the user and assistant
messages with equal timestamps, so the assistant `createdAt` is not
strictly greater than the user `createdAt`. -/
theorem c3EqualTimestampsPossible :
    Reachable env0 sameInstantWorld ∧
    sameInstantWorld.ui.messages.map Message.user = ["Вы", "Бот"] ∧
    sameInstantWorld.ui.messages.map Message.timestamp = [5, 5] ∧
    ¬ (5 : Nat) < 5 := by
  refine ⟨⟨[Event.typeInput "hi", Event.clickSend "u1" 5,
    Event.settle (Outcome.success helloResp) "b1" 5], rfl⟩,
    by decide, by decide, by decide⟩

/-- Claim C3, amended: a successful exchange appends exactly the user
message (timestamped at submission) followed by the bot message
(timestamped at settlement), in that order, and the timestamps are
non-decreasing whenever the settlement instant is not earlier than the
submission instant; strict increase is not guaranteed. -/
theorem c3SuccessAppendsUserThenBot (env : String → String) (w : World)
    (idU idB : String) (t1 t2 : Nat) (resp : Response)
    (hne : jsTrim w.ui.input ≠ "") (hmono : t1 ≤ t2) :
    (sendMessageSettle (Outcome.success resp) idB t2
        (sendMessageStart env idU t1 w)).ui.messages
      = w.ui.messages ++
        [{ id := idU, user := "Вы", text := jsTrim w.ui.input, timestamp := t1 },
         botMessageOf resp idB t2] ∧
    ({ id := idU, user := "Вы", text := jsTrim w.ui.input, timestamp := t1 :
        Message }).timestamp ≤ (botMessageOf resp idB t2).timestamp := by
  constructor
  · unfold sendMessageStart sendMessageSettle
    cases hp : w.pending <;> simp [hne, settleMessages]
  · exact hmono

/-- Witness for `c3SuccessAppendsUserThenBot` on a concrete exchange. -/
theorem c3SuccessAppendsUserThenBotWitness :
    jsTrim typedWorld.ui.input ≠ "" ∧ (1 : Nat) ≤ 2 ∧
    (sendMessageSettle (Outcome.success helloResp) "b1" 2
        (sendMessageStart env0 "u1" 1 typedWorld)).ui.messages
      = typedWorld.ui.messages ++
        [{ id := "u1", user := "Вы", text := jsTrim typedWorld.ui.input, timestamp := 1 },
         botMessageOf helloResp "b1" 2] :=
  ⟨by decide, by decide,
   (c3SuccessAppendsUserThenBot env0 typedWorld "u1" "b1" 1 2 helloResp
     (by decide) (by decide)).1⟩

/-- Claim C4, counterexample: when `choices[0].message.content` is present
but the empty string, the appended reply text is the fixed fallback, not
the (present) content, because `||` treats the empty string as falsy. -/
theorem c4PresentEmptyContentGivesFallback :
    optionalChainContent emptyContentResp = some "" ∧
    extractBotReply emptyContentResp = fallbackReply ∧
    fallbackReply ≠ "" := by
  refine ⟨rfl, rfl, by decide⟩

/-- Claim C4, amended: the reply text equals
`response.choices[0].message.content` when that field is present and
non-empty; when any link of the optional chain is absent, the reply text
is the fixed fallback string and no exception arises (the extraction is a
total function). -/
theorem c4ExtractionAmended (r : Response) :
    (∀ s : String, optionalChainContent r = some s → s ≠ "" →
      extractBotReply r = s) ∧
    (optionalChainContent r = none → extractBotReply r = fallbackReply) := by
  constructor
  · intro s hs hne
    simp [extractBotReply, jsOrString, hs, hne]
  · intro hn
    simp [extractBotReply, jsOrString, hn]

/-- Witness for `c4ExtractionAmended`: a present non-empty content is
passed through, an absent `choices` array yields the fallback. -/
theorem c4ExtractionAmendedWitness :
    extractBotReply helloResp = "Hello" ∧
    extractBotReply noChoicesResp = fallbackReply :=
  ⟨(c4ExtractionAmended helloResp).1 "Hello" rfl (by decide),
   (c4ExtractionAmended noChoicesResp).2 rfl⟩

/-- Claim C5: settling an in-flight request with a failure (network error,
timeout, or non-2xx status, all of which reach the `catch` branch) appends
exactly one bot-authored message of kind error, leaves every previously
stored message unchanged, and lowers the awaiting flag; the handler is a
total function, so no fault propagates. -/
theorem c5FailureAppendsSingleErrorMessage (env : String → String)
    (w : World) (idB : String) (now : Nat) (h : w.pending ≠ []) :
    (step env w (Event.settle Outcome.failure idB now)).ui.messages
      = w.ui.messages ++ [errorMessageOf idB now] ∧
    (errorMessageOf idB now).user = "Бот" ∧
    (errorMessageOf idB now).type = some MsgType.error ∧
    (step env w (Event.settle Outcome.failure idB now)).ui.isLoading = false := by
  cases hp : w.pending with
  | nil => exact absurd hp h
  | cons r rest =>
    refine ⟨?_, rfl, rfl, ?_⟩ <;>
      simp [step, sendMessageSettle, hp, settleMessages]

/-- Witness for `c5FailureAppendsSingleErrorMessage` at a concrete loading
world. -/
theorem c5FailureAppendsSingleErrorMessageWitness :
    loadingWorld.pending ≠ [] ∧
    (step env0 loadingWorld (Event.settle Outcome.failure "b2" 3)).ui.messages
      = loadingWorld.ui.messages ++ [errorMessageOf "b2" 3] :=
  ⟨by decide,
   (c5FailureAppendsSingleErrorMessage env0 loadingWorld "b2" 3 (by decide)).1⟩

/-- Claim C6: when the draft trims to the empty string, both submission
paths (send-button click and Enter keypress) leave the whole world
unchanged — no message is appended and no request is issued, because
`sendMessage` returns before any state update. -/
theorem c6BlankInputIsNoOp (env : String → String) (w : World)
    (idU : String) (now : Nat) (key : String) (shift : Bool)
    (h : jsTrim w.ui.input = "") :
    step env w (Event.clickSend idU now) = w ∧
    step env w (Event.pressKey key shift idU now) = w := by
  constructor
  · simp [step, sendDisabled, h]
  · by_cases hk : (key == "Enter" && !shift) = true
    · simp [step, hk, sendMessageStart, h]
    · simp [step, hk]

/-- Witness for `c6BlankInputIsNoOp` on a whitespace-only draft. -/
theorem c6BlankInputIsNoOpWitness :
    jsTrim whitespaceWorld.ui.input = "" ∧
    (step env0 whitespaceWorld (Event.clickSend "u1" 1) = whitespaceWorld ∧
     step env0 whitespaceWorld (Event.pressKey "Enter" false "u1" 1) = whitespaceWorld) :=
  ⟨by decide,
   c6BlankInputIsNoOp env0 whitespaceWorld "u1" 1 "Enter" false (by decide)⟩

/-- Claim C7, counterexample: in a reachable world with a non-empty draft
and a raised awaiting flag, the clear button empties the message sequence
but leaves the draft text and the awaiting flag untouched — the button's
handler is only `setMessages([])`. -/
theorem c7ClearDoesNotResetFlags :
    Reachable env0 draftLoadingWorld ∧
    (step env0 draftLoadingWorld Event.clickClear).ui.messages = [] ∧
    (step env0 draftLoadingWorld Event.clickClear).ui.input = "draft" ∧
    (step env0 draftLoadingWorld Event.clickClear).ui.isLoading = true ∧
    ("draft" : String) ≠ "" := by
  refine ⟨⟨[Event.typeInput "hi", Event.pressKey "Enter" false "u1" 1,
    Event.typeInput "draft"], rfl⟩, by decide, by decide, by decide, by decide⟩

/-- Claim C7, amended: from every prior world the clear operation yields
an empty message sequence and always succeeds, but it resets neither the
draft text nor the awaiting flag (and cancels no in-flight request). -/
theorem c7ClearEmptiesMessagesOnly (env : String → String) (w : World) :
    (step env w Event.clickClear).ui.messages = [] ∧
    (step env w Event.clickClear).ui.input = w.ui.input ∧
    (step env w Event.clickClear).ui.isLoading = w.ui.isLoading ∧
    (step env w Event.clickClear).pending = w.pending := by
  simp [step]

/-- Claim C8: each allow-listed model maps to its own environment
credential key (and the two keys are distinct names), any other model
string falls through to the empty credential, switching the model touches
only the config so no stored message changes, and the next request built
after the switch authenticates with the newly selected model's
credential. -/
theorem c8ModelSelectsCredentialKey (env : String → String) (w : World)
    (m other c : String) (hg : other ≠ ModelProvider.Gemini)
    (hd : other ≠ ModelProvider.DeepSeek) :
    getApiKey env ModelProvider.Gemini = env "VITE_GEMINI_API_KEY" ∧
    getApiKey env ModelProvider.DeepSeek = env "VITE_DEEPSEEKR1_API_KEY" ∧
    ("VITE_GEMINI_API_KEY" : String) ≠ "VITE_DEEPSEEKR1_API_KEY" ∧
    getApiKey env other = "" ∧
    (step env w (Event.setModel m)).ui.messages = w.ui.messages ∧
    (mkRequest env (step env w (Event.setModel m)).ui.config c).authorization
      = "Bearer " ++ getApiKey env m := by
  refine ⟨?_, ?_, by decide, ?_, ?_, ?_⟩
  · simp [getApiKey]
  · rw [getApiKey, if_neg (by decide), if_pos rfl]
  · rw [getApiKey, if_neg hg, if_neg hd]
  · simp [step]
  · simp [step, mkRequest, createApiClient]

/-- Witness for `c8ModelSelectsCredentialKey`: switching to DeepSeek in a
populated environment makes the next request carry the DeepSeek
credential, with the initial messages untouched. -/
theorem c8ModelSelectsCredentialKeyWitness :
    getApiKey env1 ModelProvider.Gemini = env1 "VITE_GEMINI_API_KEY" ∧
    getApiKey env1 ModelProvider.DeepSeek = env1 "VITE_DEEPSEEKR1_API_KEY" ∧
    getApiKey env1 "llama" = "" ∧
    (step env1 initialWorld (Event.setModel ModelProvider.DeepSeek)).ui.messages
      = initialWorld.ui.messages ∧
    (mkRequest env1
        (step env1 initialWorld (Event.setModel ModelProvider.DeepSeek)).ui.config
        "hi").authorization
      = "Bearer " ++ getApiKey env1 ModelProvider.DeepSeek := by
  have h := c8ModelSelectsCredentialKey env1 initialWorld ModelProvider.DeepSeek
    "llama" "hi" (by decide) (by decide)
  exact ⟨h.1, h.2.1, h.2.2.2.1, h.2.2.2.2.1, h.2.2.2.2.2⟩

/-- Claim C9: whenever the optional chain over the response yields a falsy
value — absent (`undefined`) or the empty string — the appended reply text
is the fixed fallback string. -/
theorem c9FalsyContentFallback (r : Response)
    (h : optionalChainContent r = none ∨ optionalChainContent r = some "") :
    extractBotReply r = fallbackReply := by
  rcases h with h | h <;> simp [extractBotReply, jsOrString, h]

/-- Witness for `c9FalsyContentFallback` on the present-but-empty content
response. -/
theorem c9FalsyContentFallbackWitness :
    (optionalChainContent emptyContentResp = none ∨
      optionalChainContent emptyContentResp = some "") ∧
    extractBotReply emptyContentResp = fallbackReply :=
  ⟨Or.inr rfl, c9FalsyContentFallback emptyContentResp (Or.inr rfl)⟩

/-- Claim C10: the bot message appended by a successful settlement has
kind code exactly when its text contains the fenced code marker, has kind
default otherwise, and never has kind error on the success path. -/
theorem c10SuccessKindCodeIffFence (env : String → String) (w : World)
    (resp : Response) (idB : String) (now : Nat) (h : w.pending ≠ []) :
    (step env w (Event.settle (Outcome.success resp) idB now)).ui.messages
      = w.ui.messages ++ [botMessageOf resp idB now] ∧
    ((botMessageOf resp idB now).type = some MsgType.code ↔
      jsIncludes (botMessageOf resp idB now).text codeFence = true) ∧
    (jsIncludes (botMessageOf resp idB now).text codeFence = false →
      (botMessageOf resp idB now).type = some MsgType.default) ∧
    (botMessageOf resp idB now).type ≠ some MsgType.error := by
  refine ⟨?_, ?_, ?_, ?_⟩
  · cases hp : w.pending with
    | nil => exact absurd hp h
    | cons r rest => simp [step, sendMessageSettle, hp, settleMessages]
  all_goals
    cases hf : jsIncludes (extractBotReply resp) codeFence <;>
      simp [botMessageOf, hf]

/-- Witness for `c10SuccessKindCodeIffFence` on a reply containing a
code fence. -/
theorem c10SuccessKindCodeIffFenceWitness :
    loadingWorld.pending ≠ [] ∧
    ((botMessageOf codeResp "b3" 4).type = some MsgType.code ↔
      jsIncludes (botMessageOf codeResp "b3" 4).text codeFence = true) ∧
    (botMessageOf codeResp "b3" 4).type ≠ some MsgType.error :=
  ⟨by decide,
   (c10SuccessKindCodeIffFence env0 loadingWorld codeResp "b3" 4 (by decide)).2.1,
   (c10SuccessKindCodeIffFence env0 loadingWorld codeResp "b3" 4 (by decide)).2.2.2⟩

end Chatbot
